import Mathlib

/-!
Verification of the Top.gg Python SDK core (rate limiter, request gate,
webhook dispatcher) against its natural-language specification.

Shallow embedding notes: timestamps (Python floats from
`datetime.utcnow().timestamp()` / `time.time()`) are modelled as rationals;
the event loop is modelled sequentially (every critical section of the
limiter runs under its `asyncio.Lock`, and cycles are modelled in the order
they complete on the single-threaded loop).
-/

namespace TopggSDK

/-! ## `topgg/ratelimiter.py` — `AsyncRateLimiter` -/

/-- Configuration of one `AsyncRateLimiter` (constructor arguments
`max_calls` and `period`; the constructor rejects non-positive values). -/
structure LimiterConfig where
  max_calls : Nat
  period : Rat
deriving DecidableEq, Repr

/-- `AsyncRateLimiter._timespan`: `self.calls[-1] - self.calls[0]`.
The deque of call timestamps is modelled as a list with the oldest entry at
the head.  Python raises `IndexError` on an empty deque; the code only
evaluates `_timespan` on nonempty deques, where this model agrees with it. -/
def timespan (calls : List Rat) : Rat :=
  calls.getLastD 0 - calls.headD 0

/-- `AsyncRateLimiter.__aenter__`: the instant at which `acquire` returns,
given the deque and the instant `now` of the call.  Translation of:
`if len(self.calls) >= self.max_calls:
   until = datetime.utcnow().timestamp() + self.period - self._timespan
   sleep_time = until - datetime.utcnow().timestamp()
   if sleep_time > 0: await asyncio.sleep(sleep_time)`
(both `utcnow()` reads are `now` in the sequential model, and
`await asyncio.sleep(t)` resumes at `now + t`). -/
def acquireReturnTime (cfg : LimiterConfig) (calls : List Rat) (now : Rat) : Rat :=
  if cfg.max_calls ≤ calls.length then
    let untilT := now + cfg.period - timespan calls
    let sleepTime := untilT - now
    if 0 < sleepTime then untilT else now
  else
    now

/-- The eviction loop of `AsyncRateLimiter.__aexit__`:
`while self._timespan >= self.period: self.calls.popleft()`. -/
def evict (cfg : LimiterConfig) : List Rat → List Rat
  | [] => []
  | c :: cs => if cfg.period ≤ timespan (c :: cs) then evict cfg cs else c :: cs

/-- `AsyncRateLimiter.__aexit__`: append the release timestamp, then run the
eviction loop. -/
def release (cfg : LimiterConfig) (calls : List Rat) (now : Rat) : List Rat :=
  evict cfg (calls ++ [now])

/-- The deques reachable by sequences of completed acquire/release cycles,
together with the instant of the last release.  A cycle started at instant
`a` (not earlier than the previous release) acquires, which returns at
`acquireReturnTime`, and releases at any instant `r` not earlier than that
(the guarded operation takes nonnegative time). -/
inductive Reachable (cfg : LimiterConfig) : List Rat → Rat → Prop
  | init : Reachable cfg [] 0
  | step (calls : List Rat) (t a r : Rat) :
      Reachable cfg calls t → t ≤ a → acquireReturnTime cfg calls a ≤ r →
      Reachable cfg (release cfg calls r) r

/-- The eviction loop removes elements only from the front: its result is a
suffix of its input. -/
theorem evict_suffix (cfg : LimiterConfig) (l : List Rat) :
    (evict cfg l).IsSuffix l := by
  induction l with
  | nil => simp [evict]
  | cons c cs ih =>
    simp only [evict]
    split
    · exact ih.trans (List.suffix_cons c cs)
    · exact List.suffix_refl _

/-- The eviction loop never lengthens the deque. -/
theorem evict_length_le (cfg : LimiterConfig) (l : List Rat) :
    (evict cfg l).length ≤ l.length :=
  (evict_suffix cfg l).length_le

/-- Post-condition of the eviction loop: the remaining span is below the
period (for a positive period). -/
theorem timespan_evict_lt (cfg : LimiterConfig) (hp : 0 < cfg.period)
    (l : List Rat) : timespan (evict cfg l) < cfg.period := by
  induction l with
  | nil => simpa [evict, timespan] using hp
  | cons c cs ih =>
    simp only [evict]
    split
    · exact ih
    · next h => exact lt_of_not_le h

/-- `acquire` never resumes in the past. -/
theorem le_acquireReturnTime (cfg : LimiterConfig) (calls : List Rat) (a : Rat) :
    a ≤ acquireReturnTime cfg calls a := by
  simp only [acquireReturnTime]
  split
  · split
    · next h => linarith
    · exact le_refl a
  · exact le_refl a

/-- Strong invariant carried through every completed cycle: the deque is
nondecreasing, bounded above by the instant of the last release, holds at
most `max_calls` entries, and spans less than `period`. -/
theorem reachable_window_inv (cfg : LimiterConfig) (hp : 0 < cfg.period)
    (hm : 0 < cfg.max_calls) {calls : List Rat} {t : Rat}
    (h : Reachable cfg calls t) :
    calls.Chain' (· ≤ ·) ∧ (∀ x ∈ calls, x ≤ t) ∧
      calls.length ≤ cfg.max_calls ∧ timespan calls < cfg.period := by
  induction h with
  | init =>
    refine ⟨List.chain'_nil, by simp, by simp, ?_⟩
    simpa [timespan] using hp
  | step calls t a r hre hta har ih =>
    obtain ⟨hch, hub, hlen, hspan⟩ := ih
    have har' : a ≤ r := le_trans (le_acquireReturnTime cfg calls a) har
    have htr : t ≤ r := le_trans hta har'
    have hub' : ∀ x ∈ calls ++ [r], x ≤ r := by
      intro x hx
      rcases List.mem_append.1 hx with hx | hx
      · exact le_trans (hub x hx) htr
      · simp_all
    have hch' : (calls ++ [r]).Chain' (· ≤ ·) := by
      rw [List.chain'_append]
      refine ⟨hch, List.chain'_singleton r, ?_⟩
      intro x hx y hy
      have hxmem : x ∈ calls := List.mem_of_mem_getLast? hx
      have hyr : r = y := by simpa using hy
      subst hyr
      exact le_trans (hub x hxmem) htr
    have hsuf := evict_suffix cfg (calls ++ [r])
    refine ⟨?_, ?_, ?_, timespan_evict_lt cfg hp _⟩
    · exact hch'.sublist hsuf.sublist
    · intro x hx
      exact hub' x (hsuf.sublist.subset hx)
    · -- length bound
      by_cases hfull : cfg.max_calls ≤ calls.length
      · -- the deque was full: the release instant is at least a full
        -- period after the oldest entry, so the loop evicts the head
        obtain ⟨c, cs, rfl⟩ : ∃ c cs, calls = c :: cs := by
          cases calls with
          | nil => simp at hfull; omega
          | cons c cs => exact ⟨c, cs, rfl⟩
        have hlast_mem : (c :: cs).getLastD 0 ∈ c :: cs := by
          rw [List.getLastD_eq_getLast?, List.getLast?_eq_getLast _ (by simp),
            Option.getD_some]
          exact List.getLast_mem (by simp)
        have hlast_le : (c :: cs).getLastD 0 ≤ t := hub _ hlast_mem
        have hret : a + cfg.period - timespan (c :: cs) ≤ r := by
          have : acquireReturnTime cfg (c :: cs) a
              = a + cfg.period - timespan (c :: cs) := by
            simp only [acquireReturnTime, if_pos hfull]
            rw [if_pos]
            linarith
          rw [this] at har
          exact har
        have hhead : (c :: cs).headD 0 = c := rfl
        have hlastc : ((c :: cs) ++ [r]).getLastD 0 = r := by
          rw [List.getLastD_eq_getLast?, List.getLast?_concat]
          rfl
        have hspan_new : cfg.period ≤ timespan ((c :: cs) ++ [r]) := by
          have h1 : timespan ((c :: cs) ++ [r]) = r - c := by
            simp only [timespan]
            rw [hlastc]
            rfl
          have h2 : timespan (c :: cs) = (c :: cs).getLastD 0 - c := rfl
          rw [h1]
          rw [h2] at hret
          linarith
        have hstep : evict cfg ((c :: cs) ++ [r]) = evict cfg (cs ++ [r]) := by
          rw [List.cons_append]
          simp only [evict]
          rw [if_pos (by simpa using hspan_new)]
        show (evict cfg ((c :: cs) ++ [r])).length ≤ cfg.max_calls
        rw [hstep]
        calc (evict cfg (cs ++ [r])).length ≤ (cs ++ [r]).length :=
              evict_length_le cfg _
          _ = (c :: cs).length := by simp
          _ ≤ cfg.max_calls := hlen
      · calc (evict cfg (calls ++ [r])).length ≤ (calls ++ [r]).length :=
              evict_length_le cfg _
          _ = calls.length + 1 := by simp
          _ ≤ cfg.max_calls := Nat.succ_le_of_lt (Nat.not_le.1 hfull)

/-- C5: after every completed acquire/release cycle, in any sequence of such
cycles, the deque holds at most `max_calls` timestamps and the span between
its oldest and newest entry is strictly below `period`. -/
theorem limiter_window_invariant (cfg : LimiterConfig) (calls : List Rat)
    (t : Rat) (hp : 0 < cfg.period) (hm : 0 < cfg.max_calls)
    (h : Reachable cfg calls t) :
    calls.length ≤ cfg.max_calls ∧ timespan calls < cfg.period :=
  ⟨(reachable_window_inv cfg hp hm h).2.2.1,
   (reachable_window_inv cfg hp hm h).2.2.2⟩

/-- Witness for C5 at a concrete reachable window. -/
theorem limiter_window_invariant_witness :
    [(1 : Rat)].length ≤ 2 ∧ timespan [(1 : Rat)] < 10 := by
  have h : Reachable ⟨2, 10⟩ [(1 : Rat)] 1 := by
    have h0 := @Reachable.step ⟨2, 10⟩ [] 0 0 1 .init (le_refl 0)
      (by norm_num [acquireReturnTime])
    have hrel : release ⟨2, 10⟩ ([] : List Rat) 1 = [1] := by
      norm_num [release, evict, timespan, List.getLastD]
    rwa [hrel] at h0
  exact limiter_window_invariant ⟨2, 10⟩ [1] 1 (by norm_num) (by norm_num) h

/-- C4 counterexample: for the reachable window `[0, 1]` of a limiter with
`max_calls = 2`, `period = 10`, an `acquire` issued at instant `5` resumes
at instant `14 = 5 + 10 - (1 - 0)`, not at `oldest + period = 10` as the
claim states. -/
theorem acquire_sleep_instant_counterexample :
    Reachable ⟨2, 10⟩ [0, 1] 1 ∧
      acquireReturnTime ⟨2, 10⟩ [0, 1] 5 ≠ 0 + 10 ∧
      acquireReturnTime ⟨2, 10⟩ [0, 1] 5 = 14 := by
  refine ⟨?_, by norm_num [acquireReturnTime, timespan, List.getLastD],
    by norm_num [acquireReturnTime, timespan, List.getLastD]⟩
  have h1 : Reachable ⟨2, 10⟩ [(0 : Rat)] 0 := by
    have h0 := @Reachable.step ⟨2, 10⟩ [] 0 0 0 .init (le_refl 0)
      (by norm_num [acquireReturnTime])
    have hrel : release ⟨2, 10⟩ ([] : List Rat) 0 = [0] := by
      norm_num [release, evict, timespan, List.getLastD]
    rwa [hrel] at h0
  have h2 := @Reachable.step ⟨2, 10⟩ [0] 0 1 1 h1 (by norm_num)
    (by norm_num [acquireReturnTime])
  have hrel2 : release ⟨2, 10⟩ [(0 : Rat)] 1 = [0, 1] := by
    norm_num [release, evict, timespan, List.getLastD]
  rwa [hrel2] at h2

/-- C4 (amended): `acquire()` returns immediately when the number of
recorded timestamps is below `max_calls`; otherwise (when the window span is
below the period, as the invariant guarantees) it suspends exactly until the
instant `now + period - (newest - oldest)` — which equals
`oldest + period` only when it is called at the instant of the newest
recorded timestamp. -/
theorem acquire_return_time_amended (cfg : LimiterConfig) (calls : List Rat)
    (now : Rat) :
    (calls.length < cfg.max_calls → acquireReturnTime cfg calls now = now) ∧
    (cfg.max_calls ≤ calls.length → timespan calls < cfg.period →
      acquireReturnTime cfg calls now = now + cfg.period - timespan calls) := by
  constructor
  · intro h
    simp [acquireReturnTime, Nat.not_le.2 h]
  · intro h1 h2
    simp only [acquireReturnTime, if_pos h1]
    rw [if_pos]
    linarith

/-- Witness for C4's amended statement at the counterexample's input. -/
theorem acquire_return_time_amended_witness :
    acquireReturnTime ⟨2, 10⟩ [0, 1] 5 = 5 + 10 - timespan [0, 1] :=
  (acquire_return_time_amended ⟨2, 10⟩ [0, 1] 5).2 (by norm_num)
    (by norm_num [timespan, List.getLastD])

/-! ## `topgg/webhooks.py` — `Vote` and the per-route request handler

JSON values (the result of `await request.json()`) are modelled by an
inductive type; numbers are restricted to integers, which covers every
payload the webhook protocol uses.  An object is a list of key/value pairs
with distinct keys (as produced by `json.loads`); lookup takes the first
binding. -/

inductive JsonVal where
  | null : JsonVal
  | bool (b : Bool) : JsonVal
  | num (n : Int) : JsonVal
  | str (s : String) : JsonVal
  | arr (elems : List JsonVal) : JsonVal
  | obj (fields : List (String × JsonVal)) : JsonVal

/-- Python truthiness of a JSON value (`bool(x)` / `if x:`). -/
def truthy : JsonVal → Bool
  | .null => false
  | .bool b => b
  | .num n => n ≠ 0
  | .str s => s ≠ ""
  | .arr elems => ¬elems.isEmpty
  | .obj fields => ¬fields.isEmpty

/-- Strip leading and trailing whitespace from a character list (the
whitespace stripping `int(str)` performs). -/
def stripEnds (l : List Char) : List Char :=
  ((l.dropWhile Char.isWhitespace).reverse.dropWhile Char.isWhitespace).reverse

/-- Digit-string value (the characters are known to be decimal digits). -/
def digitsVal (l : List Char) : Nat :=
  l.foldl (fun a c => a * 10 + (c.toNat - 48)) 0

/-- Model of Python `int(s)` on a string: strip whitespace, accept an
optional sign followed by one or more decimal digits, otherwise raise
(`none`). -/
def pyStrToInt (s : String) : Option Int :=
  match stripEnds s.data with
  | [] => none
  | c :: cs =>
    if c = '-' then
      if cs ≠ [] ∧ cs.all Char.isDigit then some (-(digitsVal cs : Int)) else none
    else if c = '+' then
      if cs ≠ [] ∧ cs.all Char.isDigit then some (digitsVal cs : Int) else none
    else if (c :: cs).all Char.isDigit then some (digitsVal (c :: cs) : Int)
    else none

/-- Model of Python `int(x)` on a JSON value: numbers pass through,
booleans coerce, numeric strings parse, everything else raises (`none`). -/
def pyToInt : JsonVal → Option Int
  | .num n => some n
  | .bool b => some (if b then 1 else 0)
  | .str s => pyStrToInt s
  | _ => none

/-- Model of the `urllib.parse` collaborator pipeline
`parse_qs(urlsplit(q).query)` followed by taking the first value for each
key (`{k: v[0] for k, v in ...}`), as used by `Vote.__init__`:
the query component is the text after the first question mark up to a
fragment marker, split on ampersands; chunks without an equals sign and
chunks with an empty value are dropped; the first occurrence of each key
wins.  (Percent-decoding is not modelled; no claim exercises it.) -/
def parseVoteQuery (s : String) : List (String × String) :=
  let comp : List Char :=
    match s.data.dropWhile (· ≠ '?') with
    | [] => []
    | _ :: rest => rest.takeWhile (· ≠ '#')
  let chunks : List (List Char) :=
    comp.foldr
      (fun c acc =>
        if c = '&' then [] :: acc
        else
          match acc with
          | [] => [[c]]
          | h :: rest => (c :: h) :: rest)
      [[]]
  let pairs : List (String × String) :=
    chunks.filterMap fun chunk =>
      match chunk.dropWhile (· ≠ '=') with
      | [] => none
      | _ :: value =>
        if value = [] then none
        else some (⟨chunk.takeWhile (· ≠ '=')⟩, ⟨value⟩)
  pairs.foldl
    (fun acc kv =>
      if (acc.lookup kv.1).isSome then acc else acc ++ [kv])
    []

/-- A dispatched vote event (`Vote` in `topgg/webhooks.py`). -/
structure Vote where
  receiver_id : Int
  voter_id : Int
  is_test : Bool
  is_weekend : Bool
  query : List (String × String)
deriving DecidableEq, Repr

/-- `Vote.__init__(self, json)`: construct a vote event from a parsed JSON
body, or raise (`none`).  Line by line:
`guild = json.get('guild')`;
`self.receiver_id = int(json.get('bot', guild))`;
`self.voter_id = int(json['user'])`;
`self.is_test = json['type'] == 'test'`;
`self.is_weekend = bool(json.get('isWeekend'))`;
`self.query = {k: v[0] for ...}` when `json.get('query')` is truthy (a
truthy non-string raises inside `urlsplit`), else `{}`.
A non-object body raises at the first `.get` attribute access. -/
def Vote.ofJson : JsonVal → Option Vote
  | .obj fields => do
    let guild : Option JsonVal := fields.lookup "guild"
    let botVal ← (fields.lookup "bot").or guild
    let rid ← pyToInt botVal
    let userVal ← fields.lookup "user"
    let vid ← pyToInt userVal
    let typeVal ← fields.lookup "type"
    let isTest : Bool :=
      match typeVal with
      | .str s => s = "test"
      | _ => false
    let isWeekend := truthy ((fields.lookup "isWeekend").getD .null)
    let queryVal := (fields.lookup "query").getD .null
    let query ←
      if truthy queryVal then
        match queryVal with
        | .str s => some (parseVoteQuery s)
        | _ => none
      else some []
    pure ⟨rid, vid, isTest, isWeekend, query⟩
  | _ => none

/-- An incoming webhook POST as the handler observes it: the
`Authorization` header (if present) and the outcome of parsing the raw body
as JSON (`none` models a body `await request.json()` rejects). -/
structure WebRequest where
  authHeader : Option String
  body : Option JsonVal

/-- Observable outcome of one handler run: the HTTP status of the response
(500 models an exception escaping the handler, which `aiohttp.web` turns
into an internal-error response), whether the body was read/parsed, and the
vote events handed to the registered callback, in order. -/
structure HandlerOutcome where
  status : Nat
  bodyParsed : Bool
  callbackVotes : List Vote
deriving DecidableEq, Repr

/-- The per-route request handler registered by `Webhooks.on_vote`
(`topgg/webhooks.py` lines 133–142); `WebhookManager._get_handler` in
`topgg/webhook.py` lines 146–157 guards identically:
`if request.headers.get('Authorization', '') != auth: return 401`;
otherwise the body is parsed and the callback is invoked with the
constructed vote, then `204` is returned.  The callback itself is assumed
to return normally (its behaviour is not part of the dispatcher). -/
def handleVote (auth : String) (req : WebRequest) : HandlerOutcome :=
  if (req.authHeader.getD "") ≠ auth then ⟨401, false, []⟩
  else
    match req.body with
    | none => ⟨500, true, []⟩
    | some j =>
      match Vote.ofJson j with
      | none => ⟨500, true, []⟩
      | some v => ⟨204, true, [v]⟩

/-- `WebhookEndpoint.__init__` (`topgg/webhook.py` line 171): the shared
secret defaults to the empty string until `auth()` is called. -/
def WebhookEndpoint.initialAuth : String := ""

/-- C1 counterexample: (i) with secret `"s3cret"`, a matching header and
the valid JSON body `{}`, the handler responds 500 and never invokes the
callback (vote construction raises `KeyError`), contradicting "valid JSON
⟹ callback exactly once and 200/204"; (ii) with the empty secret and an
absent Authorization header the handler does not respond 401 — it invokes
the callback — contradicting "mismatch, including when the header is
absent ⟹ 401". -/
theorem webhook_auth_claim_counterexample :
    (handleVote "s3cret" ⟨some "s3cret", some (.obj [])⟩).status = 500 ∧
      (handleVote "s3cret" ⟨some "s3cret", some (.obj [])⟩).callbackVotes = [] ∧
      (handleVote ""
        ⟨none, some (.obj [("bot", .num 9), ("user", .num 5),
          ("type", .str "upvote")])⟩)
        = ⟨204, true, [⟨9, 5, false, false, []⟩]⟩ := by
  refine ⟨rfl, rfl, by decide⟩

/-- C1 (amended): the handler reads a missing Authorization header as the
empty string; whenever that value differs from the route's secret it
responds 401, does not parse the body, and never invokes the callback;
whenever it equals the secret and the body is valid JSON from which a vote
event is constructible, the callback is invoked exactly once with that
event and the response status is 204. -/
theorem webhook_auth_dispatch_amended (auth : String) (req : WebRequest) :
    (req.authHeader.getD "" ≠ auth → handleVote auth req = ⟨401, false, []⟩) ∧
    (∀ j v, req.authHeader.getD "" = auth → req.body = some j →
      Vote.ofJson j = some v → handleVote auth req = ⟨204, true, [v]⟩) := by
  constructor
  · intro h
    simp [handleVote, h]
  · intro j v h hb hv
    simp [handleVote, h, hb, hv]

/-- Witness for C1's amended statement on concrete requests. -/
theorem webhook_auth_dispatch_amended_witness :
    handleVote "pass" ⟨some "wrong", some (.obj [])⟩ = ⟨401, false, []⟩ ∧
      handleVote "pass"
        ⟨some "pass", some (.obj [("bot", .str "42"), ("user", .str "777"),
          ("type", .str "test")])⟩
        = ⟨204, true, [⟨42, 777, true, false, []⟩]⟩ := by
  constructor
  · exact (webhook_auth_dispatch_amended "pass"
      ⟨some "wrong", some (.obj [])⟩).1 (by decide)
  · exact (webhook_auth_dispatch_amended "pass" _).2 _ _ (by decide) rfl (by decide)

/-- C9: an authenticated request whose JSON body is
`{"bot": "123", "user": "456", "type": "upvote"}` hands the callback an
event with `receiver_id = 123`, `voter_id = 456`, `is_test = false` and an
empty query mapping. -/
theorem vote_payload_parse_concrete :
    handleVote "s3cret"
      ⟨some "s3cret", some (.obj [("bot", .str "123"), ("user", .str "456"),
        ("type", .str "upvote")])⟩
      = ⟨204, true, [⟨123, 456, false, false, []⟩]⟩ := by
  decide

/-- C10: with the default empty secret of `WebhookEndpoint`, a request
whose Authorization header is absent passes the authentication check: the
handler reads the missing header as the empty string, which equals the
empty secret, parses the body, and invokes the callback instead of
responding 401. -/
theorem empty_secret_missing_header_passes (req : WebRequest) (j : JsonVal)
    (v : Vote) (hh : req.authHeader = none) (hb : req.body = some j)
    (hv : Vote.ofJson j = some v) :
    handleVote WebhookEndpoint.initialAuth req = ⟨204, true, [v]⟩ := by
  simp [handleVote, WebhookEndpoint.initialAuth, hh, hb, hv]

/-- Witness for C10 on a concrete guild-vote request. -/
theorem empty_secret_missing_header_passes_witness :
    handleVote WebhookEndpoint.initialAuth
      ⟨none, some (.obj [("guild", .str "31"), ("user", .num 64),
        ("type", .str "upvote")])⟩
      = ⟨204, true, [⟨31, 64, false, false, []⟩]⟩ :=
  empty_secret_missing_header_passes _ _ _ rfl rfl (by decide)

/-! ## Dispatcher lifecycle — `Webhooks` (`topgg/webhooks.py`) and
`WebhookManager` (`topgg/webhook.py`)

`bindCount` counts the `TCPSite(...).start()` calls actually performed (a
second bind is the observable effect the claim rules out). -/

/-- State of a `Webhooks` server: `__running`, the default port from the
constructor, and the number of binds performed. -/
structure WebhooksState where
  running : Bool
  defaultPort : Option Nat
  bindCount : Nat
deriving DecidableEq, Repr

/-- `Webhooks.__init__(auth, port)`. -/
def Webhooks.init (port : Option Nat) : WebhooksState :=
  ⟨false, port, 0⟩

/-- `Webhooks.start(port)`: guarded by `if not self.running`; the
effective port is `port or self.__default_port` (Python truthiness: an
explicit port `0` falls back to the default), and a missing port is an
assertion failure (`none`). -/
def Webhooks.start (s : WebhooksState) (port : Option Nat) : Option WebhooksState :=
  if s.running then some s
  else
    let effective :=
      match port with
      | some p => if p ≠ 0 then some p else s.defaultPort
      | none => s.defaultPort
    match effective with
    | none => none
    | some _ => some ⟨true, s.defaultPort, s.bindCount + 1⟩

/-- `Webhooks.close()`: guarded by `if self.running`. -/
def Webhooks.close (s : WebhooksState) : WebhooksState :=
  if s.running then ⟨false, s.defaultPort, s.bindCount⟩ else s

/-- State of a `WebhookManager`: `_is_running`, whether the `_webserver`
attribute has ever been assigned (it is declared in `__slots__` but not set
by `__init__`), and the number of binds performed. -/
structure ManagerState where
  running : Bool
  webserverSet : Bool
  bindCount : Nat
deriving DecidableEq, Repr

/-- `WebhookManager.__init__()`. -/
def WebhookManager.init : ManagerState :=
  ⟨false, false, 0⟩

/-- `WebhookManager.start(port)`: no running-state guard — it always sets
up a fresh runner, binds a new `TCPSite`, and sets `_is_running`. -/
def WebhookManager.start (m : ManagerState) : ManagerState :=
  ⟨true, true, m.bindCount + 1⟩

/-- `WebhookManager.close()`: no guard — `await self._webserver.stop()`
raises `AttributeError` (`none`) when `start` has never assigned
`_webserver`. -/
def WebhookManager.close (m : ManagerState) : Option ManagerState :=
  if m.webserverSet then some ⟨false, m.webserverSet, m.bindCount⟩ else none

/-- C7 counterexample: for `WebhookManager`, `start` on an
already-running instance performs a second bind, and `close` on a
stopped (never-started) instance raises `AttributeError` instead of being
a no-op. -/
theorem manager_lifecycle_counterexample :
    (WebhookManager.start WebhookManager.init).running = true ∧
      (WebhookManager.start (WebhookManager.start WebhookManager.init)).bindCount
        = 2 ∧
      WebhookManager.init.running = false ∧
      WebhookManager.close WebhookManager.init = none := by
  decide

/-- C7 (amended): the `Webhooks` dispatcher of `topgg/webhooks.py` is the
claimed two-state machine — `start` on a running server changes nothing
(no second bind) and `close` on a stopped server changes nothing; the
legacy `WebhookManager` of `topgg/webhook.py` has neither guard: its
`start` always performs a fresh bind, and its `close` before any `start`
raises `AttributeError`. -/
theorem webhooks_lifecycle_amended (s : WebhooksState) (m : ManagerState) :
    (∀ port, s.running = true → Webhooks.start s port = some s) ∧
    (s.running = false → Webhooks.close s = s) ∧
    ((WebhookManager.start m).bindCount = m.bindCount + 1 ∧
      (WebhookManager.start m).running = true) ∧
    (m.webserverSet = false → WebhookManager.close m = none) := by
  refine ⟨?_, ?_, ⟨rfl, rfl⟩, ?_⟩
  · intro port h
    simp [Webhooks.start, h]
  · intro h
    simp [Webhooks.close, h]
  · intro h
    simp [WebhookManager.close, h]

/-- Witness for C7's amended statement on concrete states. -/
theorem webhooks_lifecycle_amended_witness :
    Webhooks.start ⟨true, some 80, 1⟩ (some 8080) = some ⟨true, some 80, 1⟩ ∧
      Webhooks.close ⟨false, some 80, 1⟩ = ⟨false, some 80, 1⟩ ∧
      WebhookManager.close ⟨false, false, 0⟩ = none := by
  refine ⟨?_, ?_, ?_⟩
  · exact (webhooks_lifecycle_amended ⟨true, some 80, 1⟩ ⟨false, false, 0⟩).1
      (some 8080) rfl
  · exact (webhooks_lifecycle_amended ⟨false, some 80, 1⟩
      ⟨false, false, 0⟩).2.1 rfl
  · exact (webhooks_lifecycle_amended ⟨true, some 80, 1⟩
      ⟨false, false, 0⟩).2.2.2 rfl

/-! ## The request gate — `DBLClient.__request` (`topgg/client.py`) and
`HTTPClient.request` (`topgg/http.py`)

The HTTP transport is modelled as an environment `env : Nat → TResp`
mapping the index of each network invocation to the response it produces;
the trace records every request actually handed to the transport, so
"zero network calls" and "exactly one outbound call" are statements about
`sent`.  Sleeps advance the modelled clock by exactly their duration. -/

/-- `MAXIMUM_DELAY_THRESHOLD = 5.0` (`topgg/client.py` line 44). -/
def MAXIMUM_DELAY_THRESHOLD : Rat := 5

/-- The request headers the gate attaches. -/
structure Headers where
  authorization : String
  contentType : String
  userAgent : String
deriving DecidableEq, Repr

/-- Headers built by `DBLClient.__request` (`topgg/client.py` 183–187):
`Authorization: Bearer {token}`, `Content-Type: application/json`, and the
project User-Agent string interpolated with `VERSION`. -/
def dblHeaders (token version : String) : Headers :=
  ⟨"Bearer " ++ token, "application/json",
    "topggpy (https://github.com/top-gg-community/python-sdk " ++ version
      ++ ") Python/"⟩

/-- Headers built by `HTTPClient.request` (`topgg/http.py` 111–115):
`Authorization: {token}` verbatim; the User-Agent is assembled in
`__init__` from interpreter and library versions and is passed through
here opaquely. -/
def httpHeaders (token userAgent : String) : Headers :=
  ⟨token, "application/json", userAgent⟩

/-- One transport response: status, `float(headers.get('Retry-After', 0))`,
whether the Content-Type header indicates JSON, and the parse outcome of
the body when a JSON parse is attempted. -/
structure TResp where
  status : Nat
  retryAfter : Rat
  contentTypeJson : Bool
  jsonBody : Option JsonVal

/-- One request as handed to the transport: method, path, the `params` and
`json` keyword arguments (absent when not passed), and the headers. -/
structure SentCall where
  method : String
  path : String
  paramsKwarg : Option (List (String × JsonVal))
  jsonKwarg : Option (List (String × JsonVal))
  headers : Headers

/-- Mutable client state consulted by `DBLClient.__request`: whether the
session is closed and the recorded `__current_ratelimit` blocked-until
timestamp. -/
structure ClientState where
  closed : Bool
  currentRatelimit : Option Rat
deriving DecidableEq, Repr

/-- How one `send()` concludes, mirroring the error taxonomy:
`ClientStateException`, `Ratelimited(retry_after)`, `HTTPException`
(including its status-specific subclasses), a parsed 2xx value, or
exhaustion of the modelled recursion depth (the code's unbounded
recursion never returning). -/
inductive ReqResult where
  | closedError : ReqResult
  | ratelimited (retryAfter : Rat) : ReqResult
  | httpError (status : Nat) : ReqResult
  | ok (output : Option JsonVal) : ReqResult
  | outOfFuel : ReqResult

/-- Observable trace of one `send()`: its result, the transport calls made
in order, the back-off sleeps performed, and the final client state. -/
structure ReqTrace where
  result : ReqResult
  sent : List SentCall
  sleeps : List Rat
  finalState : ClientState

/-- The guard prefix of `DBLClient.__request` (`topgg/client.py` 149–158):
a closed session raises `ClientStateException`; a recorded blocked-until
timestamp still in the future raises `Ratelimited(remaining)`; an expired
one is cleared. -/
def preGate (s : ClientState) (now : Rat) : Except ReqResult ClientState :=
  if s.closed then .error .closedError
  else
    match s.currentRatelimit with
    | some b =>
      if now < b then .error (.ratelimited (b - now))
      else .ok ⟨false, none⟩
    | none => .ok s

/-- The keyword arguments and headers `DBLClient.__request` hands to
`session.request` (`topgg/client.py` 166–188): `json`/`params` only when
the corresponding dict is truthy (nonempty). -/
def mkDblCall (token version method path : String)
    (params body : List (String × JsonVal)) : SentCall :=
  ⟨method, path,
    if params.isEmpty then none else some params,
    if body.isEmpty then none else some body,
    dblHeaders token version⟩

/-- `DBLClient.__request` (`topgg/client.py` 142–215).  After the guards,
the response is read (`output` is the parsed JSON when the Content-Type
mentions JSON, else `None`), `raise_for_status()` raises for status ≥ 400,
and `ClientResponseError` is handled: a 429 with
`Retry-After > MAXIMUM_DELAY_THRESHOLD` records a hard block and raises
`Ratelimited`; any other 429 sleeps `Retry-After` seconds and recurses as
`self.__request(method, path)` — dropping `params` and `body` and with no
retry counter; remaining errors raise `HTTPException`.  `fuel` bounds the
modelled recursion depth; exhausting it (`outOfFuel`) models a recursion
that never returns. -/
def dblRequest (env : Nat → TResp) (token version : String) :
    Nat → ClientState → Rat → Nat → String → String →
      List (String × JsonVal) → List (String × JsonVal) → ReqTrace
  | 0, s, _, _, _, _, _, _ => ⟨.outOfFuel, [], [], s⟩
  | fuel + 1, s, now, idx, method, path, params, body =>
    match preGate s now with
    | .error r => ⟨r, [], [], s⟩
    | .ok s1 =>
      let call := mkDblCall token version method path params body
      let r := env idx
      let output := if r.contentTypeJson then r.jsonBody else none
      if r.status < 400 then ⟨.ok output, [call], [], s1⟩
      else if r.status = 429 then
        if MAXIMUM_DELAY_THRESHOLD < r.retryAfter then
          ⟨.ratelimited r.retryAfter, [call], [],
            ⟨s1.closed, some (now + r.retryAfter)⟩⟩
        else
          let rest := dblRequest env token version fuel s1 (now + r.retryAfter)
            (idx + 1) method path [] []
          ⟨rest.result, call :: rest.sent, r.retryAfter :: rest.sleeps,
            rest.finalState⟩
      else ⟨.httpError r.status, [call], [], s1⟩

/-- The `for _ in range(2)` retry loop of `HTTPClient.request`
(`topgg/http.py` 122–174): a 2xx returns the parsed data; a 429 sleeps
`Retry-After` and continues; 400/401/403/404/≥500 raise their typed
`HTTPException` subclass; any other status silently falls through to the
next iteration; when the loop ends, the final `raise HTTPException` uses
the last response. -/
def httpLoop (env : Nat → TResp) (call : SentCall) :
    Nat → Nat → Nat → ReqResult × List SentCall × List Rat
  | 0, _, prevStatus => (.httpError prevStatus, [], [])
  | iters + 1, idx, _ =>
    let r := env idx
    let data := if r.contentTypeJson then r.jsonBody else none
    if 200 ≤ r.status ∧ r.status < 300 then (.ok data, [call], [])
    else if r.status = 429 then
      let rest := httpLoop env call iters (idx + 1) r.status
      (rest.1, call :: rest.2.1, r.retryAfter :: rest.2.2)
    else if r.status = 400 ∨ r.status = 401 ∨ r.status = 403 ∨ r.status = 404
        ∨ 500 ≤ r.status then
      (.httpError r.status, [call], [])
    else
      let rest := httpLoop env call iters (idx + 1) r.status
      (rest.1, call :: rest.2.1, rest.2.2)

/-- `HTTPClient.request(method, endpoint, **kwargs)` (`topgg/http.py`
99–174): an empty token raises `UnauthorizedDetected` (modelled as
`httpError 0` before any call); otherwise the same kwargs and headers are
reused for every iteration of the bounded retry loop. -/
def httpClientRequest (env : Nat → TResp) (token userAgent method endpoint :
    String) (params json : Option (List (String × JsonVal))) :
    ReqResult × List SentCall × List Rat :=
  if token = "" then (.httpError 0, [], [])
  else httpLoop env ⟨method, endpoint, params, json,
    httpHeaders token userAgent⟩ 2 0 0

/-- A transport that always answers 200 with an empty JSON object. -/
def okEnv : Nat → TResp := fun _ => ⟨200, 0, true, some (.obj [])⟩

/-- A transport that always answers 429 with `Retry-After: 1` (a soft
block, below `MAXIMUM_DELAY_THRESHOLD`). -/
def env429 : Nat → TResp :=
  fun _ => ⟨429, 1, true, some (.obj [("message", .str "ratelimited")])⟩

/-- C2, evaluated at the failing input: against a transport that always
answers 429 with `Retry-After: 1` (a soft block), the current
`DBLClient.__request` does not reissue the request "exactly once more":
after the first retry it keeps recursing (at modelled depth 2 it has made
two calls and recurses again instead of raising a classified error; at
depth 6, six calls), and every retried request drops the original `params`
and `body` — the second call carries no JSON body although the first did.
The legacy `HTTPClient.request` against the same transport behaves as the
claim states: exactly two calls, both carrying the body, one sleep per
429, terminating with `HTTPException`. -/
theorem dbl_soft429_retry_divergence :
    (dblRequest env429 "t" "v" 2 ⟨false, none⟩ 0 0 "POST" "/bots/stats" []
      [("server_count", .num 5)]).result = .outOfFuel ∧
    ((dblRequest env429 "t" "v" 2 ⟨false, none⟩ 0 0 "POST" "/bots/stats" []
      [("server_count", .num 5)]).sent.map SentCall.jsonKwarg
      = [some [("server_count", .num 5)], none]) ∧
    (dblRequest env429 "t" "v" 6 ⟨false, none⟩ 0 0 "POST" "/bots/stats" []
      [("server_count", .num 5)]).sent.length = 6 ∧
    (dblRequest env429 "t" "v" 6 ⟨false, none⟩ 0 0 "POST" "/bots/stats" []
      [("server_count", .num 5)]).result = .outOfFuel ∧
    httpClientRequest env429 "t" "ua" "POST" "/bots/stats" none
      (some [("server_count", .num 5)])
      = (.httpError 429,
        [⟨"POST", "/bots/stats", none, some [("server_count", .num 5)],
          httpHeaders "t" "ua"⟩,
         ⟨"POST", "/bots/stats", none, some [("server_count", .num 5)],
          httpHeaders "t" "ua"⟩],
        [1, 1]) := by
  refine ⟨?_, ?_, ?_, ?_, ?_⟩
  · norm_num [dblRequest, preGate, env429, mkDblCall, MAXIMUM_DELAY_THRESHOLD]
  · norm_num [dblRequest, preGate, env429, mkDblCall, MAXIMUM_DELAY_THRESHOLD]
  · norm_num [dblRequest, preGate, env429, mkDblCall, MAXIMUM_DELAY_THRESHOLD]
  · norm_num [dblRequest, preGate, env429, mkDblCall, MAXIMUM_DELAY_THRESHOLD]
  · norm_num [httpClientRequest, httpLoop, env429]
    decide

/-- C3: while a recorded hard block is still in the future, `send()` fails
with `Ratelimited` carrying the remaining wait and the transport is never
invoked (for every transport), leaving the state untouched; once the block
has expired, the pre-gate clears the recorded timestamp and the request
proceeds to the network (the first transport call is made; with a 200
transport the call succeeds and the final state holds no ratelimit). -/
theorem hard_block_fast_fail (env : Nat → TResp) (token version : String)
    (fuel idx : Nat) (s : ClientState) (now b : Rat) (method path : String)
    (params body : List (String × JsonVal)) (hf : 0 < fuel)
    (hclosed : s.closed = false) (hb : s.currentRatelimit = some b) :
    (now < b →
      dblRequest env token version fuel s now idx method path params body
        = ⟨.ratelimited (b - now), [], [], s⟩) ∧
    (b ≤ now →
      ∃ rest, (dblRequest env token version fuel s now idx method path params
        body).sent = mkDblCall token version method path params body :: rest) ∧
    (b ≤ now →
      dblRequest okEnv token version fuel s now idx method path params body
        = ⟨.ok (some (.obj [])),
            [mkDblCall token version method path params body], [],
            ⟨false, none⟩⟩) := by
  obtain ⟨k, rfl⟩ := Nat.exists_eq_succ_of_ne_zero (Nat.pos_iff_ne_zero.mp hf)
  refine ⟨?_, ?_, ?_⟩
  · intro hlt
    have hpre : preGate s now = .error (.ratelimited (b - now)) := by
      simp [preGate, hclosed, hb, hlt]
    simp [dblRequest, hpre]
  · intro hge
    have hpre : preGate s now = .ok ⟨false, none⟩ := by
      simp [preGate, hclosed, hb, not_lt.2 hge]
    simp only [dblRequest, hpre]
    split
    · exact ⟨[], rfl⟩
    · split
      · split
        · exact ⟨[], rfl⟩
        · exact ⟨_, rfl⟩
      · exact ⟨[], rfl⟩
  · intro hge
    have hpre : preGate s now = .ok ⟨false, none⟩ := by
      simp [preGate, hclosed, hb, not_lt.2 hge]
    simp [dblRequest, hpre, okEnv]

/-- Witness for C3: a block until instant 10 observed at instant 3 and
again at instant 12. -/
theorem hard_block_fast_fail_witness :
    dblRequest okEnv "t" "v" 1 ⟨false, some 10⟩ 3 0 "GET" "/weekend" [] []
      = ⟨.ratelimited 7, [], [], ⟨false, some 10⟩⟩ ∧
    dblRequest okEnv "t" "v" 1 ⟨false, some 10⟩ 12 0 "GET" "/weekend" [] []
      = ⟨.ok (some (.obj [])), [mkDblCall "t" "v" "GET" "/weekend" [] []], [],
        ⟨false, none⟩⟩ := by
  constructor
  · have h := (hard_block_fast_fail okEnv "t" "v" 1 0 ⟨false, some 10⟩ 3 10
      "GET" "/weekend" [] [] (by norm_num) rfl rfl).1 (by norm_num)
    have e : (10 : Rat) - 3 = 7 := by norm_num
    rw [e] at h
    exact h
  · exact (hard_block_fast_fail okEnv "t" "v" 1 0 ⟨false, some 10⟩ 12 10
      "GET" "/weekend" [] [] (by norm_num) rfl rfl).2.2 (by norm_num)

/-- C6 counterexample: with configured token `"sometoken"`, the single
outbound call of a `send('POST', '/bots/stats', body={'server_count': 5})`
carries `Authorization: Bearer sometoken`, which is not equal to the
configured token. -/
theorem authorization_header_counterexample :
    ((dblRequest okEnv "sometoken" "v" 1 ⟨false, none⟩ 0 0 "POST"
      "/bots/stats" [] [("server_count", .num 5)]).sent.map
        (fun c => c.headers.authorization)) = ["Bearer sometoken"] ∧
    ("Bearer sometoken" : String) ≠ "sometoken" := by
  constructor
  · norm_num [dblRequest, preGate, okEnv, mkDblCall, dblHeaders]
    decide
  · decide

/-- C6 (amended): a `send('POST', '/bots/stats', body={'server_count': 5})`
performs exactly one outbound call; for the current `DBLClient` that call
carries `Authorization` equal to `"Bearer "` followed by the configured
token, and for the legacy `HTTPClient` it carries `Authorization` equal to
the configured token exactly; both set `Content-Type: application/json`. -/
theorem request_headers_amended (token version userAgent : String) :
    (dblRequest okEnv token version 1 ⟨false, none⟩ 0 0 "POST" "/bots/stats"
      [] [("server_count", .num 5)]).sent
      = [⟨"POST", "/bots/stats", none, some [("server_count", .num 5)],
          ⟨"Bearer " ++ token, "application/json",
            "topggpy (https://github.com/top-gg-community/python-sdk "
              ++ version ++ ") Python/"⟩⟩] ∧
    (token ≠ "" →
      httpClientRequest okEnv token userAgent "POST" "/bots/stats" none
        (some [("server_count", .num 5)])
        = (.ok (some (.obj [])),
          [⟨"POST", "/bots/stats", none, some [("server_count", .num 5)],
            ⟨token, "application/json", userAgent⟩⟩], [])) := by
  constructor
  · norm_num [dblRequest, preGate, okEnv, mkDblCall, dblHeaders]
  · intro h
    norm_num [httpClientRequest, httpLoop, okEnv, httpHeaders, h]

/-- Witness for C6's amended statement at a concrete token. -/
theorem request_headers_amended_witness :
    httpClientRequest okEnv "tok" "ua" "POST" "/bots/stats" none
      (some [("server_count", .num 5)])
      = (.ok (some (.obj [])),
        [⟨"POST", "/bots/stats", none, some [("server_count", .num 5)],
          ⟨"tok", "application/json", "ua"⟩⟩], []) :=
  (request_headers_amended "tok" "v" "ua").2 (by decide)

/-- An aiohttp `ClientSession` as `DBLClient` observes it. -/
structure SessionState where
  closed : Bool
deriving DecidableEq, Repr

/-- The client's session bookkeeping: the ownership flag and the session's
closed state. -/
structure OwnedSession where
  ownSession : Bool
  sessionClosed : Bool
deriving DecidableEq, Repr

/-- `DBLClient.__init__` (`topgg/client.py` 107–110):
`self.__own_session = session is None`;
`self.__session = session or ClientSession(...)` (a fresh session starts
open). -/
def DBLClient.initSession : Option SessionState → OwnedSession
  | some sess => ⟨false, sess.closed⟩
  | none => ⟨true, false⟩

/-- `DBLClient.close` (`topgg/client.py` 510–522):
`if self.__own_session and not self.is_closed:
  await self.__session.close()`.
The boolean of the result records whether `session.close()` was invoked. -/
def DBLClient.close (c : OwnedSession) : OwnedSession × Bool :=
  if c.ownSession && !c.sessionClosed then (⟨c.ownSession, true⟩, true)
  else (c, false)

/-- C8: a client built on an externally supplied session never owns it and
`close()` neither touches the session nor invokes `session.close()`; a
client that created its session internally owns it and `close()` closes
it. -/
theorem session_ownership_close (sess : SessionState) :
    ((DBLClient.initSession (some sess)).ownSession = false ∧
      DBLClient.close (DBLClient.initSession (some sess))
        = (DBLClient.initSession (some sess), false)) ∧
    ((DBLClient.initSession none).ownSession = true ∧
      DBLClient.close (DBLClient.initSession none) = (⟨true, true⟩, true)) :=
  ⟨⟨rfl, rfl⟩, rfl, rfl⟩

end TopggSDK
